import Mathlib

/-!
Verification model of the M-Pesa payment orchestration subsystem of the
SmartMeal repository.

The definitions below are shallow embeddings of the JavaScript/TypeScript
source files:
* `mpesaFormatPhoneNumber` — `backend/src/services/MpesaService.js`, `formatPhoneNumber`
* `apiFormatPhoneNumber` — `src/lib/api.ts`, `apiUtils.formatPhoneNumber`
* `processCallback` — `backend/src/services/MpesaService.js`, `processCallback`
* `handleCallback` — `backend/src/controllers/MpesaController.js`, `handleCallback`
* `checkPaymentStatus` — `backend/src/controllers/MpesaController.js`, `checkPaymentStatus`
* `initiatePayment` — `backend/src/controllers/OrderController.js`, `initiatePayment`
* `runMonitor` — the client payment-monitoring loop (`useMpesaPayment` hook,
  `startPaymentMonitoring`)

Strings are modelled as `List Char` where structural induction is needed
(phone normalization) and as `String` elsewhere.  Database writes become
explicit state passing; each awaited write in a controller is one observable
state in a trace.  JavaScript truthiness of the loosely typed callback values
is modelled explicitly (`JVal.truthy`).
-/

/-- JS: `phoneNumber.replace(/\s+/g, '')` — remove every whitespace character. -/
def stripSpaces (s : List Char) : List Char :=
  s.filter (fun c => !c.isWhitespace)

/-- Shallow embedding of `MpesaService.formatPhoneNumber` (backend):
strip whitespace, drop one leading `'+'`, rewrite a leading `'0'` to `254`,
pass a `254`-prefixed number through, prepend `254` to a 9-digit number,
otherwise return the cleaned string. -/
def mpesaFormatPhoneNumber (s : List Char) : List Char :=
  let f0 := stripSpaces s
  let f1 := if f0.head? = some '+' then f0.tail else f0
  let f2 := if f1.head? = some '0' then '2' :: '5' :: '4' :: f1.tail else f1
  if ['2', '5', '4'].isPrefixOf f2 then f2
  else if f2.length = 9 then '2' :: '5' :: '4' :: f2
  else f2

/-- Shallow embedding of `apiUtils.formatPhoneNumber` (frontend `api.ts`):
keep only digits, rewrite a leading `'0'` to `254`, pass a `254`-prefixed
number through, prepend `254` to a 9-digit number, otherwise return the
cleaned digits. -/
def apiFormatPhoneNumber (s : List Char) : List Char :=
  let cleaned := s.filter Char.isDigit
  if cleaned.head? = some '0' then '2' :: '5' :: '4' :: cleaned.tail
  else if ['2', '5', '4'].isPrefixOf cleaned then cleaned
  else if cleaned.length = 9 then '2' :: '5' :: '4' :: cleaned
  else cleaned

/-- The common branch structure shared by both formatters once the input is
cleaned: rewrite a leading `'0'` to `254`, keep a `254`-prefixed list, pad a
9-element list with `254`, otherwise return the list unchanged. -/
def normalize254 (u : List Char) : List Char :=
  if u.head? = some '0' then '2' :: '5' :: '4' :: u.tail
  else if ['2', '5', '4'].isPrefixOf u then u
  else if u.length = 9 then '2' :: '5' :: '4' :: u
  else u

/-- A loosely typed JSON scalar as carried by the gateway callback. -/
inductive JVal where
  | num : Int → JVal
  | str : String → JVal
deriving DecidableEq

/-- JavaScript truthiness of a `JVal`: the number `0` and the empty string
are falsy, everything else is truthy. -/
def JVal.truthy : JVal → Bool
  | .num n => n != 0
  | .str s => s != ""

/-- JavaScript truthiness of a nullable `JVal` (JS `null`/`undefined` are falsy). -/
def optTruthy : Option JVal → Bool
  | none => false
  | some v => v.truthy

/-- JavaScript truthiness of a nullable string. -/
def strOptTruthy : Option String → Bool
  | none => false
  | some s => s != ""

/-- One entry of `CallbackMetadata.Item`: a `{Name, Value}` pair. -/
structure MetaItem where
  name : String
  value : JVal
deriving DecidableEq

/-- The `Body.stkCallback` object of the gateway callback envelope.
`callbackMetadata = none` models a missing/empty `CallbackMetadata.Item`. -/
structure StkCallback where
  merchantRequestID : String
  checkoutRequestID : String
  resultCode : Int
  resultDesc : String
  callbackMetadata : Option (List MetaItem)
deriving DecidableEq

/-- The raw callback payload; `stk = none` models a payload in which
`Body` or `Body.stkCallback` is missing (the structurally invalid case). -/
structure CallbackData where
  stk : Option StkCallback
deriving DecidableEq

/-- The record built by `MpesaService.processCallback`. -/
structure CallbackResult where
  merchantRequestId : String
  checkoutRequestId : String
  resultCode : Int
  resultDesc : String
  success : Bool
  transactionId : Option JVal
  amount : Option JVal
  mpesaReceiptNumber : Option JVal
  phoneNumber : Option JVal
deriving DecidableEq

/-- One iteration of the `CallbackMetadata.Item.forEach` switch in
`processCallback`: items are matched by their `Name` field. -/
def applyMetaItem (r : CallbackResult) (item : MetaItem) : CallbackResult :=
  if item.name = "TransactionID" then { r with transactionId := some item.value }
  else if item.name = "Amount" then { r with amount := some item.value }
  else if item.name = "MpesaReceiptNumber" then { r with mpesaReceiptNumber := some item.value }
  else if item.name = "PhoneNumber" then { r with phoneNumber := some item.value }
  else r

/-- Shallow embedding of `MpesaService.processCallback` on a structurally
valid payload: extract the correlation IDs, result code/description, and —
only when `ResultCode === 0` and metadata is present — fold the metadata
items through the name-matching switch. -/
def processCallback (cb : StkCallback) : CallbackResult :=
  let base : CallbackResult :=
    { merchantRequestId := cb.merchantRequestID
      checkoutRequestId := cb.checkoutRequestID
      resultCode := cb.resultCode
      resultDesc := cb.resultDesc
      success := cb.resultCode = 0
      transactionId := none
      amount := none
      mpesaReceiptNumber := none
      phoneNumber := none }
  if cb.resultCode = 0 then
    match cb.callbackMetadata with
    | some items => items.foldl applyMetaItem base
    | none => base
  else base

/-- Payment status values actually used by the backend
(`paymentStatus` writes in the controllers). -/
inductive PayStatus where
  | PENDING
  | PROCESSING
  | COMPLETED
  | FAILED
deriving DecidableEq

/-- The `paymentTransaction` row (Prisma `PaymentTransaction`). -/
structure PaymentTransaction where
  orderId : Nat
  transactionId : JVal
  amount : Int
  phoneNumber : String
  status : PayStatus
  mpesaRequestId : String
  checkoutRequestId : String
  resultCode : Option Int
  resultDesc : Option String
  callbackData : Option CallbackData
deriving DecidableEq

/-- The `order` row (Prisma `Order`), restricted to the fields the payment
flow reads or writes. -/
structure OrderRec where
  id : Nat
  orderNumber : String
  totalAmount : Int
  phoneNumber : String
  paymentStatus : PayStatus
  transactionId : Option JVal
  mpesaRequestId : Option String
  checkoutRequestId : Option String
deriving DecidableEq

/-- An order together with its (optional) payment transaction, as loaded by
the controllers with `include: { paymentTransaction: true }`. -/
structure OrderRow where
  order : OrderRec
  paymentTransaction : Option PaymentTransaction
deriving DecidableEq

/-- The webhook acknowledgement sent back to the gateway:
HTTP status plus the `{ResultCode, ResultDesc}` envelope. -/
structure AckResponse where
  httpStatus : Nat
  resultCode : Int
  resultDesc : String
deriving DecidableEq

/-- The acknowledgement for a processed callback (`res.json({ResultCode: 0, ...})`). -/
def ackSuccess : AckResponse := ⟨200, 0, "Success"⟩

/-- The acknowledgement for a structurally invalid payload (HTTP 400). -/
def ackInvalid : AckResponse := ⟨400, 1, "Invalid callback data structure"⟩

/-- The acknowledgement when no order matches the merchant request ID (HTTP 404). -/
def ackNotFound : AckResponse := ⟨404, 1, "Order not found"⟩

/-- The `prisma.$transaction` block of `MpesaController.handleCallback`,
applied to the matched row: set the order's payment status from the callback
outcome, stamp the transaction ID when present and truthy, and update or
create the payment transaction row. -/
def updateRow (data : CallbackData) (result : CallbackResult) (r : OrderRow) : OrderRow :=
  let newStatus := if result.success then PayStatus.COMPLETED else PayStatus.FAILED
  let newOrderTxn : Option JVal :=
    match result.transactionId with
    | some v => if result.success && v.truthy then some v else r.order.transactionId
    | none => r.order.transactionId
  let order' := { r.order with paymentStatus := newStatus, transactionId := newOrderTxn }
  let pt' : PaymentTransaction :=
    match r.paymentTransaction with
    | some pt =>
      { pt with
        status := newStatus
        resultCode := some result.resultCode
        resultDesc := some result.resultDesc
        callbackData := some data
        transactionId :=
          match result.transactionId with
          | some v => if result.success && v.truthy then v else pt.transactionId
          | none => pt.transactionId }
    | none =>
      { orderId := r.order.id
        transactionId :=
          match result.transactionId with
          | some v => if v.truthy then v else JVal.str result.checkoutRequestId
          | none => JVal.str result.checkoutRequestId
        amount := r.order.totalAmount
        phoneNumber := r.order.phoneNumber
        status := newStatus
        mpesaRequestId := result.merchantRequestId
        checkoutRequestId := result.checkoutRequestId
        resultCode := some result.resultCode
        resultDesc := some result.resultDesc
        callbackData := some data }
  { order := order', paymentTransaction := some pt' }

/-- Shallow embedding of `MpesaController.handleCallback`: reject a payload
without the `Body.stkCallback` envelope (HTTP 400), look the order up by the
merchant request ID (`findFirst`), answer HTTP 404 when none matches, and
otherwise apply `updateRow` to the matched order and acknowledge success. -/
def handleCallback (db : List OrderRow) (data : CallbackData) :
    List OrderRow × AckResponse :=
  match data.stk with
  | none => (db, ackInvalid)
  | some cb =>
    let result := processCallback cb
    match db.find? (fun r => r.order.mpesaRequestId == some result.merchantRequestId) with
    | none => (db, ackNotFound)
    | some row =>
      (db.map (fun r => if r.order.id = row.order.id then updateRow data result r else r),
        ackSuccess)

/-- Outcome of `MpesaService.checkStkPushStatus`: either the gateway answered
(with a numeric `ResultCode`) or the query itself failed. -/
inductive StkQueryResult where
  | success (resultCode : Int)
  | failure (err : String)
deriving DecidableEq

/-- The read-only projection returned by `MpesaController.checkPaymentStatus`. -/
structure StatusResponse where
  success : Bool
  paymentStatus : PayStatus
  transactionId : Option JVal
deriving DecidableEq

/-- Shallow embedding of `MpesaController.checkPaymentStatus` on an existing
order: return terminal statuses unchanged without querying the gateway;
for a `PROCESSING` order with a (truthy) checkout request ID consult the
gateway — `ResultCode 0` completes the payment, `1032` leaves it unchanged,
any other code fails it — and answer with the updated order's fields. -/
def checkPaymentStatus (o : OrderRec) (gw : StkQueryResult) :
    OrderRec × StatusResponse :=
  if o.paymentStatus = PayStatus.COMPLETED ∨ o.paymentStatus = PayStatus.FAILED then
    (o, ⟨true, o.paymentStatus, o.transactionId⟩)
  else
    let o' :=
      if o.paymentStatus = PayStatus.PROCESSING ∧ strOptTruthy o.checkoutRequestId then
        match gw with
        | .success c =>
          if c = 0 then { o with paymentStatus := PayStatus.COMPLETED }
          else if c ≠ 1032 then { o with paymentStatus := PayStatus.FAILED }
          else o
        | .failure _ => o
      else o
    (o', ⟨true, o'.paymentStatus, o'.transactionId⟩)

/-- Outcome of `MpesaService.initiateStkPush`: the gateway synchronously
accepted (returning the two correlation IDs) or the push failed. -/
inductive StkPushOutcome where
  | ok (merchantRequestID checkoutRequestID : String)
  | err (msg : String)
deriving DecidableEq

/-- The HTTP response of `OrderController.initiatePayment`. -/
structure InitResponse where
  success : Bool
  message : String
deriving DecidableEq

/-- JS `a || b` on strings: the empty string is falsy. -/
def jsOrElse (s fallback : String) : String := if s = "" then fallback else s

/-- Shallow embedding of `OrderController.initiatePayment`.  The returned
list is the trace of observable database states: the initial row, then one
state per awaited write (set `PROCESSING`; on gateway failure revert to
`PENDING`; on success record the correlation IDs and then create the
payment transaction row). -/
def initiatePayment (row : OrderRow) (gw : StkPushOutcome) :
    List OrderRow × InitResponse :=
  if row.order.paymentStatus = PayStatus.COMPLETED then
    ([row], ⟨false, "Order has already been paid"⟩)
  else if row.order.paymentStatus = PayStatus.PROCESSING then
    ([row], ⟨false, "Payment is already being processed"⟩)
  else
    let row1 : OrderRow :=
      { row with order := { row.order with paymentStatus := PayStatus.PROCESSING } }
    match gw with
    | .err msg =>
      let row2 : OrderRow :=
        { row1 with order := { row1.order with paymentStatus := PayStatus.PENDING } }
      ([row, row1, row2], ⟨false, jsOrElse msg ("Failed to initiate payment")⟩)
    | .ok mid cid =>
      let row2 : OrderRow :=
        { row1 with order :=
          { row1.order with mpesaRequestId := some mid, checkoutRequestId := some cid } }
      let row3 : OrderRow :=
        { row2 with paymentTransaction := some (
          { orderId := row.order.id
            transactionId := JVal.str cid
            amount := row.order.totalAmount
            phoneNumber := row.order.phoneNumber
            status := PayStatus.PROCESSING
            mpesaRequestId := mid
            checkoutRequestId := cid
            resultCode := none
            resultDesc := none
            callbackData := none : PaymentTransaction }) }
      ([row, row1, row2, row3], ⟨true, "Payment initiated successfully"⟩)

/-- The client payment state machine of the `useMpesaPayment` hook. -/
inductive CStatus where
  | idle
  | initiating
  | processing
  | success
  | failed
deriving DecidableEq

/-- The `PaymentState` of the `useMpesaPayment` hook. -/
structure ClientState where
  cstatus : CStatus
  progress : Nat
  transactionId : Option JVal
  error : Option String
deriving DecidableEq

/-- The timeout message set by `startPaymentMonitoring` when the bounded
window is exhausted. -/
def timeoutMsg : String := "Payment timeout. Please check your phone and try again."

/-- One tick of the `setInterval` body of `startPaymentMonitoring`
(`n` is the incremented `attempts` counter): bump the simulated progress;
on every second attempt perform a status check (modelled against the
backend's `checkPaymentStatus`, reading the reported payment status);
after the status check, if `attempts >= maxAttempts` (30) overwrite the
client state with the timeout failure.  Only the client state and the
order row are touched; the tick never writes the order itself. -/
def monitorTick (n : Nat) (c : ClientState) (o : OrderRec) (gw : StkQueryResult) :
    ClientState × OrderRec :=
  let c1 : ClientState := { c with progress := min (20 + n * 2) 90 }
  let so :=
    if n % 2 = 0 then
      let r := checkPaymentStatus o gw
      if r.2.paymentStatus = PayStatus.COMPLETED then
        ({ c1 with cstatus := CStatus.success, progress := 100,
                   transactionId := r.2.transactionId, error := none }, r.1)
      else if r.2.paymentStatus = PayStatus.FAILED then
        ({ c1 with cstatus := CStatus.failed, progress := 0,
                   error := some ("Payment was declined or failed") }, r.1)
      else (c1, r.1)
    else (c1, o)
  if 30 ≤ n then
    ({ so.1 with cstatus := CStatus.failed, progress := 0, error := some timeoutMsg }, so.2)
  else so

/-- The monitoring loop: run `monitorTick` while the client is still in the
`processing` state (a success/failed/timeout branch clears the interval),
for at most `fuel` ticks, threading the attempt counter, the client state
and the order row; `gws n` is the gateway's answer to the status query of
attempt `n`. -/
def runMonitor : Nat → Nat → ClientState → OrderRec → (Nat → StkQueryResult) →
    ClientState × OrderRec
  | 0, _, c, o, _ => (c, o)
  | fuel + 1, n, c, o, gws =>
    if c.cstatus = CStatus.processing then
      let r := monitorTick (n + 1) c o (gws (n + 1))
      runMonitor fuel (n + 1) r.1 r.2 gws
    else (c, o)

/-! ### Concrete fixtures used by witnesses and counterexamples -/

/-- A fresh, unpaid order (as created by `createOrder`). -/
def freshOrder : OrderRec :=
  { id := 1, orderNumber := "SM001234", totalAmount := 330,
    phoneNumber := "254712345678", paymentStatus := PayStatus.PENDING,
    transactionId := none, mpesaRequestId := none, checkoutRequestId := none }

/-- The fresh order as a row without a payment transaction. -/
def freshRow : OrderRow := { order := freshOrder, paymentTransaction := none }

/-- An order whose payment attempt is in flight (after a successful initiate). -/
def processingOrder : OrderRec :=
  { freshOrder with
    paymentStatus := PayStatus.PROCESSING
    mpesaRequestId := some ("M1")
    checkoutRequestId := some ("ws_CO_1") }

/-- The in-flight order as a row. -/
def processingRow : OrderRow := { order := processingOrder, paymentTransaction := none }

/-- A successful callback for merchant request `M1` carrying a receipt. -/
def successCallback : CallbackData :=
  ⟨some { merchantRequestID := "M1", checkoutRequestID := "ws_CO_1",
          resultCode := 0, resultDesc := "The service request is processed successfully.",
          callbackMetadata := some [⟨"TransactionID", JVal.str ("ABC123")⟩,
                                    ⟨"Amount", JVal.num 330⟩,
                                    ⟨"PhoneNumber", JVal.str ("254712345678")⟩] }⟩

/-- A failure callback for the same merchant request `M1`. -/
def failureCallback : CallbackData :=
  ⟨some { merchantRequestID := "M1", checkoutRequestID := "ws_CO_1",
          resultCode := 1, resultDesc := "The balance is insufficient for the transaction.",
          callbackMetadata := none }⟩

/-- An order whose attempt already completed (terminal, receipt stamped). -/
def completedRow : OrderRow :=
  { order := { processingOrder with
               paymentStatus := PayStatus.COMPLETED
               transactionId := some (JVal.str ("ABC123")) },
    paymentTransaction := some
      { orderId := 1, transactionId := JVal.str ("ABC123"), amount := 330,
        phoneNumber := "254712345678", status := PayStatus.COMPLETED,
        mpesaRequestId := "M1", checkoutRequestId := "ws_CO_1",
        resultCode := some 0, resultDesc := some ("ok"),
        callbackData := some successCallback } }

/-- An order whose attempt already failed (terminal). -/
def failedRow : OrderRow :=
  { order := { processingOrder with paymentStatus := PayStatus.FAILED },
    paymentTransaction := some
      { orderId := 1, transactionId := JVal.str ("ws_CO_1"), amount := 330,
        phoneNumber := "254712345678", status := PayStatus.FAILED,
        mpesaRequestId := "M1", checkoutRequestId := "ws_CO_1",
        resultCode := some 1, resultDesc := some ("cancelled by user"),
        callbackData := some failureCallback } }

/-- The client state right after a successful initiation (progress 20). -/
def clientStart : ClientState :=
  { cstatus := CStatus.processing, progress := 20, transactionId := none, error := none }

/-- A full monitoring window run against a gateway that only ever answers
with the "still awaiting user action" code 1032. -/
def monitorRun : ClientState × OrderRec :=
  runMonitor 30 0 clientStart processingOrder (fun _ => StkQueryResult.success 1032)

/-- Metadata items of the successful fixture callback, in gateway order. -/
def metaItemsA : List MetaItem :=
  [⟨"TransactionID", JVal.str ("ABC123")⟩, ⟨"Amount", JVal.num 330⟩,
   ⟨"PhoneNumber", JVal.str ("254712345678")⟩]

/-- The same metadata items in a different order. -/
def metaItemsB : List MetaItem :=
  [⟨"Amount", JVal.num 330⟩, ⟨"TransactionID", JVal.str ("ABC123")⟩,
   ⟨"PhoneNumber", JVal.str ("254712345678")⟩]

/-- A successful callback carrying `metaItemsA`. -/
def cbMeta : StkCallback :=
  { merchantRequestID := "M1", checkoutRequestID := "ws_CO_1", resultCode := 0,
    resultDesc := "ok", callbackMetadata := some metaItemsA }

/-- A metadata list with two items sharing the name `Amount`. -/
def dupItemsA : List MetaItem :=
  [⟨"Amount", JVal.num 100⟩, ⟨"Amount", JVal.num 200⟩]

/-- The duplicate-name metadata list in the opposite order. -/
def dupItemsB : List MetaItem :=
  [⟨"Amount", JVal.num 200⟩, ⟨"Amount", JVal.num 100⟩]

/-- A successful callback carrying the duplicate-name metadata. -/
def cbDup : StkCallback :=
  { merchantRequestID := "M2", checkoutRequestID := "C2", resultCode := 0,
    resultDesc := "ok", callbackMetadata := some dupItemsA }

/-! ### Claim theorems -/

/-- C2 (amended): `checkPaymentStatus` preserves terminal states — for an
order whose payment status is already `COMPLETED` or `FAILED` it performs no
state change and answers with the stored status and transaction ID, without
consulting the gateway. -/
theorem checkPaymentStatus_preserves_terminal (o : OrderRec) (gw : StkQueryResult)
    (h : o.paymentStatus = PayStatus.COMPLETED ∨ o.paymentStatus = PayStatus.FAILED) :
    checkPaymentStatus o gw = (o, ⟨true, o.paymentStatus, o.transactionId⟩) := by
  unfold checkPaymentStatus
  rw [if_pos h]

/-- C2 witness: the terminal-preservation theorem at the completed fixture. -/
theorem checkPaymentStatus_preserves_terminal_witness :
    (completedRow.order.paymentStatus = PayStatus.COMPLETED ∨
      completedRow.order.paymentStatus = PayStatus.FAILED) ∧
    checkPaymentStatus completedRow.order (StkQueryResult.success 0) =
      (completedRow.order,
        ⟨true, completedRow.order.paymentStatus, completedRow.order.transactionId⟩) :=
  ⟨Or.inl (by decide),
   checkPaymentStatus_preserves_terminal completedRow.order (StkQueryResult.success 0)
     (Or.inl (by decide))⟩

/-- C2 counterexample: a late successful callback moves an attempt that is
already terminal (`FAILED`) to `COMPLETED`, so callback processing does move
attempts backward out of a terminal state. -/
theorem handleCallback_moves_terminal_failed :
    failedRow.order.paymentStatus = PayStatus.FAILED ∧
    ((handleCallback [failedRow] successCallback).1.head?.map
        (fun r => r.order.paymentStatus)) = some PayStatus.COMPLETED := by
  decide

/-- C6 (confirmed): for a gateway response observed by a status poll on a
`PROCESSING` attempt, result code `0` completes the attempt, the
"still awaiting user action" code `1032` causes no state change, and any
other code fails the attempt. -/
theorem checkPaymentStatus_resultCode_cases (o : OrderRec) (cid : String) (c : Int)
    (h1 : o.paymentStatus = PayStatus.PROCESSING)
    (h2 : o.checkoutRequestId = some cid) (h3 : cid ≠ "") :
    (checkPaymentStatus o (StkQueryResult.success c)).1 =
      (if c = 0 then { o with paymentStatus := PayStatus.COMPLETED }
       else if c = 1032 then o
       else { o with paymentStatus := PayStatus.FAILED }) := by
  unfold checkPaymentStatus
  have hterm : ¬ (o.paymentStatus = PayStatus.COMPLETED ∨
      o.paymentStatus = PayStatus.FAILED) := by
    rw [h1]
    rintro (h | h) <;> exact PayStatus.noConfusion h
  rw [if_neg hterm]
  have hcond : o.paymentStatus = PayStatus.PROCESSING ∧
      strOptTruthy o.checkoutRequestId := by
    refine ⟨h1, ?_⟩
    rw [h2]
    simpa [strOptTruthy] using h3
  rw [if_pos hcond]
  by_cases hc : c = 0
  · simp [hc]
  · by_cases hc2 : c = 1032
    · simp [hc, hc2]
    · simp [hc, hc2]

/-- C6 witness: the result-code case analysis at the in-flight fixture with
the "still awaiting" code. -/
theorem checkPaymentStatus_resultCode_cases_witness :
    processingOrder.paymentStatus = PayStatus.PROCESSING ∧
    (checkPaymentStatus processingOrder (StkQueryResult.success 1032)).1 =
      (if (1032 : Int) = 0 then { processingOrder with paymentStatus := PayStatus.COMPLETED }
       else if (1032 : Int) = 1032 then processingOrder
       else { processingOrder with paymentStatus := PayStatus.FAILED }) :=
  ⟨by decide,
   checkPaymentStatus_resultCode_cases processingOrder "ws_CO_1" 1032
     (by decide) (by decide) (by decide)⟩

/-- C7 (amended): when the gateway rejects the initiate request, the order's
payment status is reverted to `PENDING` (not processing) and the gateway's
error message is returned to the caller; no `FAILED` attempt record storing
the error is persisted (the final row differs from the initial one only in
the reverted payment status). -/
theorem initiatePayment_gateway_failure (row : OrderRow) (msg : String)
    (h1 : row.order.paymentStatus ≠ PayStatus.COMPLETED)
    (h2 : row.order.paymentStatus ≠ PayStatus.PROCESSING)
    (h3 : msg ≠ "") :
    (initiatePayment row (StkPushOutcome.err msg)).2 = ⟨false, msg⟩ ∧
    (initiatePayment row (StkPushOutcome.err msg)).1.getLast? =
      some { row with order := { row.order with paymentStatus := PayStatus.PENDING } } := by
  unfold initiatePayment
  rw [if_neg h1, if_neg h2]
  exact ⟨by simp [jsOrElse, h3], rfl⟩

/-- C7 witness: the gateway-failure theorem at the fresh-order fixture. -/
theorem initiatePayment_gateway_failure_witness :
    freshRow.order.paymentStatus ≠ PayStatus.COMPLETED ∧
    (initiatePayment freshRow (StkPushOutcome.err ("Request failed"))).2 =
      ⟨false, "Request failed"⟩ :=
  ⟨by decide,
   (initiatePayment_gateway_failure freshRow ("Request failed")
     (by decide) (by decide) (by decide)).1⟩

/-- C7 counterexample: on gateway failure the attempt does not transition to
`FAILED` with the error stored — the final observable state of
`initiatePayment` has payment status `PENDING` and still no payment
transaction record. -/
theorem initiatePayment_gateway_failure_no_failed_record :
    ((initiatePayment freshRow (StkPushOutcome.err ("Request failed"))).1.getLast?.map
        (fun r => (r.order.paymentStatus, r.paymentTransaction))) =
      some (PayStatus.PENDING, none) ∧
    PayStatus.PENDING ≠ PayStatus.FAILED := by
  decide

/-- C3 (amended): `initiatePayment` writes `PROCESSING` before the gateway
call — the second observable state has payment status `PROCESSING` while the
correlation IDs are still whatever they were before the call (absent for a
fresh attempt) — and only a later, separate write records the gateway's
correlation IDs, after which the order is `PROCESSING` with both IDs
present. -/
theorem initiatePayment_processing_before_ids (row : OrderRow) (gw : StkPushOutcome)
    (h1 : row.order.paymentStatus ≠ PayStatus.COMPLETED)
    (h2 : row.order.paymentStatus ≠ PayStatus.PROCESSING) :
    (((initiatePayment row gw).1.get? 1).map
        (fun r => (r.order.paymentStatus, r.order.mpesaRequestId, r.order.checkoutRequestId))) =
      some (PayStatus.PROCESSING, row.order.mpesaRequestId, row.order.checkoutRequestId) ∧
    (∀ mid cid, gw = StkPushOutcome.ok mid cid →
      ((initiatePayment row gw).1.getLast?.map
          (fun r => (r.order.paymentStatus, r.order.mpesaRequestId, r.order.checkoutRequestId))) =
        some (PayStatus.PROCESSING, some mid, some cid)) := by
  unfold initiatePayment
  rw [if_neg h1, if_neg h2]
  constructor
  · cases gw <;> rfl
  · rintro mid cid rfl
    rfl

/-- C3 witness: the write-ordering theorem at the fresh-order fixture with a
synchronously accepted initiate call. -/
theorem initiatePayment_processing_before_ids_witness :
    freshRow.order.paymentStatus ≠ PayStatus.COMPLETED ∧
    (((initiatePayment freshRow (StkPushOutcome.ok ("M1") ("ws_CO_1"))).1.get? 1).map
        (fun r => (r.order.paymentStatus, r.order.mpesaRequestId, r.order.checkoutRequestId))) =
      some (PayStatus.PROCESSING, freshRow.order.mpesaRequestId,
        freshRow.order.checkoutRequestId) :=
  ⟨by decide,
   (initiatePayment_processing_before_ids freshRow (StkPushOutcome.ok ("M1") ("ws_CO_1"))
     (by decide) (by decide)).1⟩

/-- C3 counterexample: in the middle of a successful `initiatePayment` run
there is an observable database state whose payment status is `PROCESSING`
while the merchant correlation ID is still absent, so the transition to
`PROCESSING` and the recording of the correlation IDs are not one atomic
write, and `PROCESSING` is reached before the gateway accepts. -/
theorem initiatePayment_processing_without_ids_observable :
    (((initiatePayment freshRow (StkPushOutcome.ok ("M1") ("ws_CO_1"))).1.get? 1).map
        (fun r => (r.order.paymentStatus, r.order.mpesaRequestId))) =
      some (PayStatus.PROCESSING, none) := by
  decide

/-- Unfolding equation for `handleCallback` on a structurally invalid payload. -/
theorem handleCallback_eq_invalid (db : List OrderRow) (data : CallbackData)
    (h : data.stk = none) : handleCallback db data = (db, ackInvalid) := by
  unfold handleCallback
  rw [h]

/-- Unfolding equation for `handleCallback` when no order matches. -/
theorem handleCallback_eq_notFound (db : List OrderRow) (data : CallbackData)
    (cb : StkCallback) (h : data.stk = some cb)
    (hf : db.find? (fun r =>
      r.order.mpesaRequestId == some (processCallback cb).merchantRequestId) = none) :
    handleCallback db data = (db, ackNotFound) := by
  unfold handleCallback
  rw [h]
  dsimp only
  rw [hf]

/-- Unfolding equation for `handleCallback` when an order matches. -/
theorem handleCallback_eq_found (db : List OrderRow) (data : CallbackData)
    (cb : StkCallback) (row : OrderRow) (h : data.stk = some cb)
    (hf : db.find? (fun r =>
      r.order.mpesaRequestId == some (processCallback cb).merchantRequestId) = some row) :
    handleCallback db data =
      (db.map (fun r => if r.order.id = row.order.id then
        updateRow data (processCallback cb) r else r), ackSuccess) := by
  unfold handleCallback
  rw [h]
  dsimp only
  rw [hf]

/-- C4 (amended): `handleCallback` acknowledges success exactly when the
payload carries the `Body.stkCallback` envelope and some order matches the
merchant correlation ID; a structurally invalid payload yields the HTTP 400
negative acknowledgement with no state change, and a valid payload with no
matching order yields the HTTP 404 negative acknowledgement (not a success
acknowledgement) with no state change. -/
theorem handleCallback_ack_classification (db : List OrderRow) (data : CallbackData) :
    ((handleCallback db data).2 = ackSuccess ↔
      ∃ cb, data.stk = some cb ∧
        (db.find? (fun r =>
          r.order.mpesaRequestId == some (processCallback cb).merchantRequestId)).isSome = true) ∧
    (data.stk = none → handleCallback db data = (db, ackInvalid)) ∧
    (∀ cb, data.stk = some cb →
      db.find? (fun r =>
        r.order.mpesaRequestId == some (processCallback cb).merchantRequestId) = none →
      handleCallback db data = (db, ackNotFound)) := by
  have hinv : ackInvalid ≠ ackSuccess := by decide
  have hnf : ackNotFound ≠ ackSuccess := by decide
  cases hstk : data.stk with
  | none =>
    have heq : handleCallback db data = (db, ackInvalid) :=
      handleCallback_eq_invalid db data hstk
    refine ⟨?_, fun _ => heq, fun cb hcb _ => Option.noConfusion hcb⟩
    rw [heq]
    constructor
    · exact fun h => absurd h hinv
    · rintro ⟨cb, hcb, -⟩
      exact Option.noConfusion hcb
  | some cb =>
    cases hfind : db.find? (fun r =>
        r.order.mpesaRequestId == some (processCallback cb).merchantRequestId) with
    | none =>
      have heq : handleCallback db data = (db, ackNotFound) :=
        handleCallback_eq_notFound db data cb hstk hfind
      refine ⟨?_, fun hcb => Option.noConfusion hcb, fun cb' hcb' _ => ?_⟩
      · rw [heq]
        constructor
        · exact fun h => absurd h hnf
        · rintro ⟨cb', hcb', hsome⟩
          cases hcb'
          rw [hfind] at hsome
          exact Bool.noConfusion hsome
      · cases hcb'
        exact heq
    | some row =>
      have heq := handleCallback_eq_found db data cb row hstk hfind
      refine ⟨?_, fun hcb => Option.noConfusion hcb, fun cb' hcb' hfind' => ?_⟩
      · rw [heq]
        exact ⟨fun _ => ⟨cb, rfl, by rw [hfind]; rfl⟩, fun _ => rfl⟩
      · cases hcb'
        rw [hfind] at hfind'
        exact Option.noConfusion hfind'

/-- C4 witness: the classification theorem at a matching in-flight fixture,
giving the success acknowledgement. -/
theorem handleCallback_ack_classification_witness :
    (handleCallback [processingRow] successCallback).2 = ackSuccess :=
  (handleCallback_ack_classification [processingRow] successCallback).1.mpr
    ⟨_, rfl, by decide⟩

/-- C4 counterexample: a structurally valid callback whose merchant
correlation ID matches no order is answered with the HTTP 404 negative
acknowledgement (`ResultCode 1`), not with a success acknowledgement as the
claim states. -/
theorem handleCallback_negative_ack_when_unmatched :
    (handleCallback [] successCallback).2 = ackNotFound ∧
    (handleCallback [freshRow] successCallback).2 = ackNotFound ∧
    ackNotFound ≠ ackSuccess := by
  decide

/-- `updateRow` never touches the order's merchant correlation ID. -/
theorem updateRow_order_mpesaRequestId (data : CallbackData) (res : CallbackResult)
    (r : OrderRow) :
    (updateRow data res r).order.mpesaRequestId = r.order.mpesaRequestId := rfl

/-- `updateRow` never touches the order's primary key. -/
theorem updateRow_order_id (data : CallbackData) (res : CallbackResult) (r : OrderRow) :
    (updateRow data res r).order.id = r.order.id := rfl

/-- Applying the callback's `$transaction` block twice with the same payload
yields the same row as applying it once. -/
theorem updateRow_idem (data : CallbackData) (res : CallbackResult) (r : OrderRow) :
    updateRow data res (updateRow data res r) = updateRow data res r := by
  unfold updateRow
  cases hpt : r.paymentTransaction <;>
    cases hti : res.transactionId <;>
      dsimp only <;> split_ifs <;> first | rfl | simp_all

/-- `find?` through `map`, stated for the composed predicate. -/
theorem find?_through_map {α β : Type} (f : β → α) (p : α → Bool) (l : List β) :
    (l.map f).find? p = (l.find? (fun b => p (f b))).map f := by
  induction l with
  | nil => rfl
  | cons x xs ih =>
    cases h : p (f x) <;> simp [List.find?_cons, h, ih]

/-- Re-running the conditional per-row update over an already-updated table
changes nothing. -/
theorem map_update_stable (db : List OrderRow) (data : CallbackData)
    (res : CallbackResult) (i : Nat) :
    ((db.map (fun r => if r.order.id = i then updateRow data res r else r)).map
      (fun r => if r.order.id = i then updateRow data res r else r)) =
    db.map (fun r => if r.order.id = i then updateRow data res r else r) := by
  rw [List.map_map]
  have hcomp : ((fun r : OrderRow => if r.order.id = i then updateRow data res r else r) ∘
      (fun r : OrderRow => if r.order.id = i then updateRow data res r else r)) =
      (fun r : OrderRow => if r.order.id = i then updateRow data res r else r) := by
    funext r
    by_cases hid : r.order.id = i
    · simp only [Function.comp, if_pos hid, updateRow_order_id, updateRow_idem]
    · simp only [Function.comp, if_neg hid]
  rw [hcomp]

/-- C1 (amended): when `handleCallback` acknowledges success, delivering the
same callback payload a second time is a state-level no-op — the second
delivery returns the very same database (all values written by the first
delivery, including receipt and result code, are preserved unchanged) and
again acknowledges success.  (A *different* late callback for a terminal
attempt is, however, re-applied; see the counterexample.) -/
theorem handleCallback_replay_idempotent (db : List OrderRow) (data : CallbackData)
    (h : (handleCallback db data).2 = ackSuccess) :
    handleCallback (handleCallback db data).1 data = handleCallback db data := by
  cases hstk : data.stk with
  | none =>
    rw [handleCallback_eq_invalid db data hstk] at h
    have hbad : ackInvalid = ackSuccess := h
    exact absurd hbad (by decide)
  | some cb =>
    cases hfind : db.find? (fun r =>
        r.order.mpesaRequestId == some (processCallback cb).merchantRequestId) with
    | none =>
      rw [handleCallback_eq_notFound db data cb hstk hfind] at h
      have hbad : ackNotFound = ackSuccess := h
      exact absurd hbad (by decide)
    | some row =>
      have heq := handleCallback_eq_found db data cb row hstk hfind
      have hfind1 : ((db.map (fun r => if r.order.id = row.order.id then
          updateRow data (processCallback cb) r else r)).find? (fun r =>
            r.order.mpesaRequestId == some (processCallback cb).merchantRequestId)) =
          some (updateRow data (processCallback cb) row) := by
        rw [find?_through_map]
        have hcomp : (fun b : OrderRow =>
            ((if b.order.id = row.order.id then updateRow data (processCallback cb) b
              else b) : OrderRow).order.mpesaRequestId ==
              some (processCallback cb).merchantRequestId) =
            (fun b : OrderRow => b.order.mpesaRequestId ==
              some (processCallback cb).merchantRequestId) := by
          funext b
          by_cases hid : b.order.id = row.order.id
          · rw [if_pos hid, updateRow_order_mpesaRequestId]
          · rw [if_neg hid]
        rw [hcomp, hfind, Option.map_some']
        rw [if_pos rfl]
      have heq2 := handleCallback_eq_found
        (db.map (fun r => if r.order.id = row.order.id then
          updateRow data (processCallback cb) r else r)) data cb
        (updateRow data (processCallback cb) row) hstk hfind1
      rw [heq, heq2]
      have hidrow : (updateRow data (processCallback cb) row).order.id = row.order.id :=
        updateRow_order_id data (processCallback cb) row
      simp only [hidrow]
      rw [map_update_stable db data (processCallback cb) row.order.id]

/-- C1 witness: replaying the successful fixture callback against the
in-flight fixture row leaves the database exactly as the first delivery
left it. -/
theorem handleCallback_replay_idempotent_witness :
    (handleCallback [processingRow] successCallback).2 = ackSuccess ∧
    handleCallback (handleCallback [processingRow] successCallback).1 successCallback =
      handleCallback [processingRow] successCallback :=
  ⟨by decide,
   handleCallback_replay_idempotent [processingRow] successCallback (by decide)⟩

/-- C1 counterexample: a *different* callback delivered after the attempt is
terminal is not a no-op — `handleCallback` acknowledges success but
overwrites the completed attempt (receipt `ABC123`, result code 0) with the
failure outcome, so a callback for a terminal attempt does change state. -/
theorem handleCallback_overwrites_completed :
    completedRow.order.paymentStatus = PayStatus.COMPLETED ∧
    (handleCallback [completedRow] failureCallback).2 = ackSuccess ∧
    ((handleCallback [completedRow] failureCallback).1.head?.map
        (fun r => r.order.paymentStatus)) = some PayStatus.FAILED := by
  decide

/-- A status query answered with the "still awaiting" code 1032 leaves a
`PROCESSING` order unchanged and reports `PROCESSING` back. -/
theorem checkPaymentStatus_awaiting (o : OrderRec)
    (h1 : o.paymentStatus = PayStatus.PROCESSING)
    (h2 : strOptTruthy o.checkoutRequestId = true) :
    checkPaymentStatus o (StkQueryResult.success 1032) =
      (o, ⟨true, PayStatus.PROCESSING, o.transactionId⟩) := by
  unfold checkPaymentStatus
  have hterm : ¬ (o.paymentStatus = PayStatus.COMPLETED ∨
      o.paymentStatus = PayStatus.FAILED) := by
    rw [h1]
    rintro (h | h) <;> exact PayStatus.noConfusion h
  rw [if_neg hterm, if_pos ⟨h1, h2⟩]
  dsimp only
  rw [if_neg (by decide : ¬ ((1032 : Int) = 0)),
    if_neg (by decide : ¬ ((1032 : Int) ≠ 1032)), h1]

/-- A non-final monitor tick against the "still awaiting" gateway only bumps
the simulated progress. -/
theorem monitorTick_awaiting (n : Nat) (c : ClientState) (o : OrderRec)
    (h1 : o.paymentStatus = PayStatus.PROCESSING)
    (h2 : strOptTruthy o.checkoutRequestId = true) (hn : ¬ 30 ≤ n) :
    monitorTick n c o (StkQueryResult.success 1032) =
      ({ c with progress := min (20 + n * 2) 90 }, o) := by
  unfold monitorTick
  rw [checkPaymentStatus_awaiting o h1 h2]
  dsimp only
  by_cases hpar : n % 2 = 0
  · rw [if_pos hpar,
      if_neg (by decide : ¬ (PayStatus.PROCESSING = PayStatus.COMPLETED)),
      if_neg (by decide : ¬ (PayStatus.PROCESSING = PayStatus.FAILED)),
      if_neg hn]
  · rw [if_neg hpar, if_neg hn]

/-- The final (30th) monitor tick against the "still awaiting" gateway
overwrites the client state with the timeout failure and leaves the order
untouched. -/
theorem monitorTick_timeout30 (c : ClientState) (o : OrderRec)
    (h1 : o.paymentStatus = PayStatus.PROCESSING)
    (h2 : strOptTruthy o.checkoutRequestId = true) :
    monitorTick 30 c o (StkQueryResult.success 1032) =
      (⟨CStatus.failed, 0, c.transactionId, some timeoutMsg⟩, o) := by
  unfold monitorTick
  rw [checkPaymentStatus_awaiting o h1 h2]
  dsimp only
  rw [if_pos (by decide : (30 : Nat) % 2 = 0),
    if_neg (by decide : ¬ (PayStatus.PROCESSING = PayStatus.COMPLETED)),
    if_neg (by decide : ¬ (PayStatus.PROCESSING = PayStatus.FAILED)),
    if_pos (by decide : (30 : Nat) ≤ 30)]

/-- Running the rest of the monitoring window (fuel ticks, counter at `n`,
`n + fuel = 30`) against the "still awaiting" gateway ends in the client
timeout failure with the order row never written. -/
theorem runMonitor_timeout (fuel n : Nat) (c : ClientState) (o : OrderRec)
    (hfn : n + fuel = 30) (hf : 0 < fuel)
    (hc : c.cstatus = CStatus.processing)
    (h1 : o.paymentStatus = PayStatus.PROCESSING)
    (h2 : strOptTruthy o.checkoutRequestId = true) :
    runMonitor fuel n c o (fun _ => StkQueryResult.success 1032) =
      (⟨CStatus.failed, 0, c.transactionId, some timeoutMsg⟩, o) := by
  induction fuel generalizing n c with
  | zero => exact absurd hf (by omega)
  | succ fuel ih =>
    unfold runMonitor
    rw [if_pos hc]
    dsimp only
    cases fuel with
    | zero =>
      have hn : n = 29 := by omega
      subst hn
      rw [monitorTick_timeout30 c o h1 h2]
      rfl
    | succ fuel' =>
      have hlt : ¬ 30 ≤ n + 1 := by omega
      rw [monitorTick_awaiting (n + 1) c o h1 h2 hlt]
      exact ih (n + 1) { c with progress := min (20 + (n + 1) * 2) 90 }
        (by omega) (by omega) hc

/-- C5 (amended): when the bounded polling window (30 ticks) is exhausted
while the gateway only ever answers "still awaiting user action" (1032), the
client-side monitor ends in a local `failed` state with the timeout message —
but no terminal transition is applied to the stored attempt: the order is
left exactly as it was, still `PROCESSING`, and a subsequent new payment
attempt for it is rejected with "Payment is already being processed". -/
theorem monitor_timeout_no_server_transition (o : OrderRec) (c : ClientState)
    (pt : Option PaymentTransaction) (gw2 : StkPushOutcome)
    (hc : c.cstatus = CStatus.processing)
    (h1 : o.paymentStatus = PayStatus.PROCESSING)
    (h2 : strOptTruthy o.checkoutRequestId = true) :
    runMonitor 30 0 c o (fun _ => StkQueryResult.success 1032) =
      (⟨CStatus.failed, 0, c.transactionId, some timeoutMsg⟩, o) ∧
    (initiatePayment ⟨o, pt⟩ gw2).2 = ⟨false, "Payment is already being processed"⟩ := by
  refine ⟨runMonitor_timeout 30 0 c o (by omega) (by omega) hc h1 h2, ?_⟩
  unfold initiatePayment
  have hne : (⟨o, pt⟩ : OrderRow).order.paymentStatus ≠ PayStatus.COMPLETED := by
    rw [show (⟨o, pt⟩ : OrderRow).order = o from rfl, h1]
    exact fun hcontra => PayStatus.noConfusion hcontra
  rw [if_neg hne, if_pos (show (⟨o, pt⟩ : OrderRow).order.paymentStatus =
    PayStatus.PROCESSING from h1)]

/-- C5 witness: the timeout theorem at the in-flight fixture. -/
theorem monitor_timeout_no_server_transition_witness :
    clientStart.cstatus = CStatus.processing ∧
    runMonitor 30 0 clientStart processingOrder (fun _ => StkQueryResult.success 1032) =
      (⟨CStatus.failed, 0, clientStart.transactionId, some timeoutMsg⟩, processingOrder) :=
  ⟨by decide,
   (monitor_timeout_no_server_transition processingOrder clientStart none
     (StkPushOutcome.ok ("M2") ("C2")) (by decide) (by decide) (by decide)).1⟩

/-- C5 counterexample: after the full window against an always-awaiting
gateway, the attempt's stored status is still `PROCESSING` — the poller has
not applied a terminal `Failed` transition — and a new payment attempt for
the same order is rejected rather than permitted. -/
theorem monitor_timeout_leaves_order_processing :
    monitorRun.2.paymentStatus = PayStatus.PROCESSING ∧
    PayStatus.PROCESSING ≠ PayStatus.FAILED ∧
    monitorRun.1.cstatus = CStatus.failed ∧
    monitorRun.1.error = some timeoutMsg ∧
    (initiatePayment ⟨monitorRun.2, none⟩ (StkPushOutcome.ok ("M2") ("C2"))).2 =
      ⟨false, "Payment is already being processed"⟩ := by
  decide

/-- Metadata switch iterations for items with different names commute. -/
theorem applyMetaItem_comm (a b : MetaItem) (hab : a.name ≠ b.name)
    (r : CallbackResult) :
    applyMetaItem (applyMetaItem r a) b = applyMetaItem (applyMetaItem r b) a := by
  unfold applyMetaItem
  split_ifs <;> first | rfl | simp_all

/-- Folding the metadata switch over a list with pairwise distinct names is
invariant under permutation of the list. -/
theorem foldl_applyMetaItem_perm {items items' : List MetaItem}
    (hnd : (items.map MetaItem.name).Nodup) (hp : items.Perm items')
    (r : CallbackResult) :
    items.foldl applyMetaItem r = items'.foldl applyMetaItem r :=
  hp.foldl_eq' (fun x hx y hy z => by
    by_cases hxy : x = y
    · rw [hxy]
    · exact applyMetaItem_comm x y
        (fun hn => hxy (List.inj_on_of_nodup_map hnd hx hy hn)) z) r

/-- C9 (amended): on a successful callback, `processCallback` extracts the
receipt, amount and payer phone by matching each metadata item's `Name`
field, so whenever the item names are pairwise distinct the extracted result
is identical under any permutation of the metadata items.  (With duplicate
names the last occurrence wins and order matters; see the counterexample.) -/
theorem processCallback_metadata_by_name (cb : StkCallback)
    (items items' : List MetaItem)
    (h0 : cb.resultCode = 0) (hm : cb.callbackMetadata = some items)
    (hnd : (items.map MetaItem.name).Nodup) (hp : items.Perm items') :
    processCallback { cb with callbackMetadata := some items' } = processCallback cb := by
  unfold processCallback
  rw [hm]
  dsimp only
  rw [if_pos h0, if_pos h0]
  exact (foldl_applyMetaItem_perm hnd hp _).symm

/-- C9 witness: the permutation-invariance theorem at the fixture callback
with distinct item names. -/
theorem processCallback_metadata_by_name_witness :
    (metaItemsA.map MetaItem.name).Nodup ∧
    processCallback { cbMeta with callbackMetadata := some metaItemsB } =
      processCallback cbMeta :=
  ⟨by decide,
   processCallback_metadata_by_name cbMeta metaItemsA metaItemsB rfl rfl
     (by decide) (by decide)⟩

/-- C9 counterexample: with two metadata items sharing the name `Amount`,
permuting the item list changes the extraction result (the last occurrence
wins), so the extracted result is not identical under every permutation of
the metadata items. -/
theorem processCallback_perm_sensitive :
    dupItemsA.Perm dupItemsB ∧
    processCallback { cbDup with callbackMetadata := some dupItemsB } ≠
      processCallback cbDup := by
  constructor
  · decide
  · decide

/-- Removing whitespace from a whitespace-free list is the identity. -/
theorem stripSpaces_eq_self {s : List Char} (h : ∀ c ∈ s, c.isWhitespace = false) :
    stripSpaces s = s := by
  unfold stripSpaces
  apply List.filter_eq_self.mpr
  intro a ha
  simp [h a ha]

/-- Members of a whitespace-stripped list are not whitespace. -/
theorem no_ws_of_mem_stripSpaces {s : List Char} {c : Char} (h : c ∈ stripSpaces s) :
    c.isWhitespace = false := by
  unfold stripSpaces at h
  simpa using List.of_mem_filter h

/-- `254` is a prefix of any list it was just prepended to. -/
theorem prefix254_cons (t : List Char) :
    ['2', '5', '4'].isPrefixOf ('2' :: '5' :: '4' :: t) = true := by
  simp [List.isPrefixOf]

/-- Lists with the `254` prefix are exactly the `'2'::'5'::'4'::t` lists. -/
theorem prefix254_iff (u : List Char) :
    ['2', '5', '4'].isPrefixOf u = true ↔ ∃ t, u = '2' :: '5' :: '4' :: t := by
  constructor
  · intro h
    cases u with
    | nil => simp [List.isPrefixOf] at h
    | cons a u1 =>
      cases u1 with
      | nil => simp [List.isPrefixOf] at h
      | cons b u2 =>
        cases u2 with
        | nil => simp [List.isPrefixOf] at h
        | cons c t =>
          simp [List.isPrefixOf] at h
          obtain ⟨ha, hb, hc⟩ := h
          subst ha
          subst hb
          subst hc
          exact ⟨t, rfl⟩
  · rintro ⟨t, rfl⟩
    exact prefix254_cons t

/-- On a whitespace-free list that does not start with `'+'`, the backend
formatter is exactly the shared `normalize254` branch structure. -/
theorem mpesaFormat_clean (u : List Char)
    (hws : ∀ c ∈ u, c.isWhitespace = false) (hplus : u.head? ≠ some '+') :
    mpesaFormatPhoneNumber u = normalize254 u := by
  unfold mpesaFormatPhoneNumber normalize254
  dsimp only
  rw [stripSpaces_eq_self hws, if_neg hplus]
  by_cases h0 : u.head? = some '0'
  · rw [if_pos h0, if_pos h0, if_pos (prefix254_cons u.tail)]
  · rw [if_neg h0, if_neg h0]

/-- The backend formatter in terms of `normalize254`: strip whitespace, drop
one leading `'+'`, then normalize. -/
theorem mpesaFormat_eq_normalize (t : List Char) :
    mpesaFormatPhoneNumber t =
      normalize254 (if (stripSpaces t).head? = some '+' then (stripSpaces t).tail
                    else stripSpaces t) := by
  unfold mpesaFormatPhoneNumber
  dsimp only
  by_cases hp : (stripSpaces t).head? = some '+'
  · rw [if_pos hp]
    by_cases h0 : (stripSpaces t).tail.head? = some '0'
    · unfold normalize254
      rw [if_pos h0, if_pos h0, if_pos (prefix254_cons _)]
    · unfold normalize254
      rw [if_neg h0, if_neg h0]
  · rw [if_neg hp]
    by_cases h0 : (stripSpaces t).head? = some '0'
    · unfold normalize254
      rw [if_pos h0, if_pos h0, if_pos (prefix254_cons _)]
    · unfold normalize254
      rw [if_neg h0, if_neg h0]

/-- The frontend formatter is `normalize254` after the digit filter. -/
theorem apiFormat_eq_normalize (s : List Char) :
    apiFormatPhoneNumber s = normalize254 (s.filter Char.isDigit) := rfl

/-- `normalize254` either outputs a `254`-prefixed list or leaves a list
untouched because none of its rewrite conditions applied. -/
theorem normalize254_cases (u : List Char) :
    (∃ t, normalize254 u = '2' :: '5' :: '4' :: t) ∨
    (normalize254 u = u ∧ u.head? ≠ some '0' ∧
      ['2', '5', '4'].isPrefixOf u = false ∧ u.length ≠ 9) := by
  unfold normalize254
  by_cases h0 : u.head? = some '0'
  · exact Or.inl ⟨u.tail, by rw [if_pos h0]⟩
  · by_cases hpre : ['2', '5', '4'].isPrefixOf u = true
    · obtain ⟨t, ht⟩ := (prefix254_iff u).mp hpre
      exact Or.inl ⟨t, by rw [if_neg h0, if_pos hpre, ht]⟩
    · have hpre' : ['2', '5', '4'].isPrefixOf u = false := by
        cases hb : ['2', '5', '4'].isPrefixOf u
        · rfl
        · exact absurd hb hpre
      by_cases h9 : u.length = 9
      · exact Or.inl ⟨u, by rw [if_neg h0, if_neg hpre, if_pos h9]⟩
      · exact Or.inr ⟨by rw [if_neg h0, if_neg hpre, if_neg h9], h0, hpre', h9⟩

/-- A `254`-prefixed list is a fixed point of `normalize254`. -/
theorem normalize254_fixed_of_cons (t : List Char) :
    normalize254 ('2' :: '5' :: '4' :: t) = '2' :: '5' :: '4' :: t := by
  unfold normalize254
  rw [if_neg (by simp), if_pos (prefix254_cons t)]

/-- `normalize254` is idempotent. -/
theorem normalize254_idem (u : List Char) :
    normalize254 (normalize254 u) = normalize254 u := by
  rcases normalize254_cases u with ⟨t, ht⟩ | ⟨heq, h0, hpre, h9⟩
  · rw [ht, normalize254_fixed_of_cons]
  · rw [heq, heq]

/-- `normalize254` preserves any character predicate holding on the input
and on the digits `2`, `5`, `4`. -/
theorem normalize254_pred {p : Char → Bool} (h2 : p '2' = true) (h5 : p '5' = true)
    (h4 : p '4' = true) {u : List Char} (h : ∀ c ∈ u, p c = true) :
    ∀ c ∈ normalize254 u, p c = true := by
  unfold normalize254
  split_ifs <;> intro c hc
  · rcases List.mem_cons.mp hc with rfl | hc1
    · exact h2
    rcases List.mem_cons.mp hc1 with rfl | hc2
    · exact h5
    rcases List.mem_cons.mp hc2 with rfl | hc3
    · exact h4
    · exact h c (List.mem_of_mem_tail hc3)
  · exact h c hc
  · rcases List.mem_cons.mp hc with rfl | hc1
    · exact h2
    rcases List.mem_cons.mp hc1 with rfl | hc2
    · exact h5
    rcases List.mem_cons.mp hc2 with rfl | hc3
    · exact h4
    · exact h c hc3
  · exact h c hc

/-- C8 (confirmed): both formatters rewrite a local `0`-prefixed number to
the `254`-prefixed international form and pass a number already in the
country-code form through unchanged (stated for inputs already free of the
characters each formatter strips); in particular `"0712345678"` and
`"254712345678"` both normalize to the identical value `"254712345678"`
under both the backend and the frontend formatter. -/
theorem formatPhoneNumber_normalization (s t : List Char)
    (hs : ∀ c ∈ s, c.isWhitespace = false)
    (ht : ∀ c ∈ t, c.isDigit = true) :
    (∀ rest, s = '0' :: rest → mpesaFormatPhoneNumber s = '2' :: '5' :: '4' :: rest) ∧
    (['2', '5', '4'].isPrefixOf s = true → mpesaFormatPhoneNumber s = s) ∧
    (∀ rest, t = '0' :: rest → apiFormatPhoneNumber t = '2' :: '5' :: '4' :: rest) ∧
    (['2', '5', '4'].isPrefixOf t = true → apiFormatPhoneNumber t = t) ∧
    mpesaFormatPhoneNumber ("0712345678".data) = "254712345678".data ∧
    mpesaFormatPhoneNumber ("254712345678".data) = "254712345678".data ∧
    apiFormatPhoneNumber ("0712345678".data) = "254712345678".data ∧
    apiFormatPhoneNumber ("254712345678".data) = "254712345678".data := by
  refine ⟨?_, ?_, ?_, ?_, by decide, by decide, by decide, by decide⟩
  · rintro rest rfl
    rw [mpesaFormat_clean _ hs (by simp)]
    unfold normalize254
    simp
  · intro hpre
    obtain ⟨u, rfl⟩ := (prefix254_iff s).mp hpre
    rw [mpesaFormat_clean _ hs (by simp)]
    exact normalize254_fixed_of_cons u
  · rintro rest rfl
    rw [apiFormat_eq_normalize,
      List.filter_eq_self.mpr (fun c hc => ht c hc)]
    unfold normalize254
    simp
  · intro hpre
    rw [apiFormat_eq_normalize,
      List.filter_eq_self.mpr (fun c hc => ht c hc)]
    obtain ⟨u, rfl⟩ := (prefix254_iff t).mp hpre
    exact normalize254_fixed_of_cons u

/-- C8 witness: the normalization theorem at the concrete local number. -/
theorem formatPhoneNumber_normalization_witness :
    (∀ c ∈ ("0712345678".data), c.isWhitespace = false) ∧
    mpesaFormatPhoneNumber ("0712345678".data) = "254712345678".data :=
  ⟨by decide,
   (formatPhoneNumber_normalization ("0712345678".data) ("254712345678".data)
     (by decide) (by decide)).2.2.2.2.1⟩

/-- C10 (amended): the frontend formatter is idempotent on every input; the
backend formatter is idempotent on every input whose whitespace-stripped
form does not begin with two `'+'` characters, but not in general (see the
counterexample `"++0712345678"`). -/
theorem formatPhoneNumber_idempotence (s t : List Char)
    (hpp : ['+', '+'].isPrefixOf (stripSpaces t) = false) :
    apiFormatPhoneNumber (apiFormatPhoneNumber s) = apiFormatPhoneNumber s ∧
    mpesaFormatPhoneNumber (mpesaFormatPhoneNumber t) = mpesaFormatPhoneNumber t := by
  constructor
  · rw [apiFormat_eq_normalize s, apiFormat_eq_normalize]
    have hd := normalize254_pred (p := Char.isDigit) (by decide) (by decide) (by decide)
      (u := s.filter Char.isDigit) (fun x hx => List.of_mem_filter hx)
    rw [List.filter_eq_self.mpr (fun a ha => hd a ha), normalize254_idem]
  · have hppT : (stripSpaces t).head? = some '+' →
        (stripSpaces t).tail.head? ≠ some '+' := by
      intro hp hq
      cases htS : stripSpaces t with
      | nil => rw [htS] at hp; exact Option.noConfusion hp
      | cons a u =>
        rw [htS] at hp hq hpp
        have ha : a = '+' := by simpa using hp
        cases u with
        | nil => simp at hq
        | cons b v =>
          have hb : b = '+' := by simpa using hq
          rw [ha, hb] at hpp
          simp [List.isPrefixOf] at hpp
    have hwsU : ∀ c ∈ (if (stripSpaces t).head? = some '+' then (stripSpaces t).tail
        else stripSpaces t), c.isWhitespace = false := by
      intro c hc
      by_cases hp : (stripSpaces t).head? = some '+'
      · rw [if_pos hp] at hc
        exact no_ws_of_mem_stripSpaces (List.mem_of_mem_tail hc)
      · rw [if_neg hp] at hc
        exact no_ws_of_mem_stripSpaces hc
    have hplusU : (if (stripSpaces t).head? = some '+' then (stripSpaces t).tail
        else stripSpaces t).head? ≠ some '+' := by
      by_cases hp : (stripSpaces t).head? = some '+'
      · rw [if_pos hp]
        exact hppT hp
      · rw [if_neg hp]
        exact hp
    have hwsV : ∀ c ∈ normalize254 (if (stripSpaces t).head? = some '+' then
        (stripSpaces t).tail else stripSpaces t), c.isWhitespace = false := by
      intro c hc
      have := normalize254_pred (p := fun c => !c.isWhitespace) (by decide) (by decide)
        (by decide) (fun x hx => by simp [hwsU x hx]) c hc
      simpa using this
    have hplusV : (normalize254 (if (stripSpaces t).head? = some '+' then
        (stripSpaces t).tail else stripSpaces t)).head? ≠ some '+' := by
      rcases normalize254_cases (if (stripSpaces t).head? = some '+' then
          (stripSpaces t).tail else stripSpaces t) with ⟨u, hu⟩ | ⟨heq, -, -, -⟩
      · rw [hu]
        simp
      · rw [heq]
        exact hplusU
    rw [mpesaFormat_eq_normalize t, mpesaFormat_clean _ hwsV hplusV, normalize254_idem]

/-- C10 witness: idempotence of both formatters at the concrete local
number. -/
theorem formatPhoneNumber_idempotence_witness :
    ['+', '+'].isPrefixOf (stripSpaces ("0712345678".data)) = false ∧
    mpesaFormatPhoneNumber (mpesaFormatPhoneNumber ("0712345678".data)) =
      mpesaFormatPhoneNumber ("0712345678".data) :=
  ⟨by decide,
   (formatPhoneNumber_idempotence ("0712345678".data) ("0712345678".data) (by decide)).2⟩

/-- C10 counterexample: the backend formatter is not idempotent on every
input — `"++0712345678"` maps first to `"+0712345678"` and only a second
application yields `"254712345678"`. -/
theorem mpesaFormatPhoneNumber_not_idempotent :
    mpesaFormatPhoneNumber (mpesaFormatPhoneNumber ("++0712345678".data)) ≠
      mpesaFormatPhoneNumber ("++0712345678".data) := by
  decide
